/-
Verification of the shift-management UI component (src/src/ShiftManagement.jsx).

Shallow embedding: the component's pure logic (client-side filtering,
draft/shift-list manipulation, validation, and the state transitions of the
fetch/save/delete handlers) is translated into executable Lean definitions.
Network interaction is modelled by passing the outcome of each request as an
explicit argument; JavaScript `NaN` values (from `parseInt` on malformed
input) are modelled with `Option`; strings keep JavaScript semantics for the
ASCII data used here (`substring(0,5)` is `String.take 5`, `localeCompare`
ordering is the codepoint order of `LinearOrder String`).
-/
import Mathlib

namespace ShiftManagement

/-- `API_BASE_URL` constant from the source. -/
def API_BASE_URL : String := "http://127.0.0.1:8000/api/vacancy"

/-- A shift record as delivered by the backend (wire key `swifts`).
`start_time`/`end_time` may carry seconds (the UI truncates with
`substring(0, 5)`). -/
structure WireShift where
  date : String
  start_time : String
  end_time : String
  type : String
  price : Int
deriving DecidableEq, Repr

/-- A vacancy as delivered by the backend.  `swifts` is `none` when the field
is absent (`!vacancy.swifts` in the source). -/
structure Vacancy where
  id : Nat
  title : String
  description : String
  swifts : Option (List WireShift)
deriving DecidableEq, Repr

/-- A draft shift row in the form (`formData.shifts` elements).  `price` is
`none` when the JavaScript value is `NaN` (e.g. `parseInt("")`). -/
structure UiShift where
  date : String
  start_time : String
  end_time : String
  type : String
  price : Option Int
deriving DecidableEq, Repr

/-- The form draft (`formData`). -/
structure FormData where
  title : String
  description : String
  shifts : List UiShift
deriving DecidableEq, Repr

/-- `initialFormData` from the source. -/
def initialFormData : FormData := { title := "", description := "", shifts := [] }

/-- The `initialShiftDetails` object from the source (everything of a new
shift row except its date). -/
structure ShiftDetails where
  start_time : String
  end_time : String
  type : String
  price : Option Int
deriving DecidableEq, Repr

/-- `initialShiftDetails` from the source. -/
def initialShiftDetails : ShiftDetails :=
  { start_time := "09:00", end_time := "17:00", type := "Consultation", price := some 70 }

/-- `{ date: dateInput, ...initialShiftDetails }` from `addShift`. -/
def ShiftDetails.withDate (d : String) (sd : ShiftDetails) : UiShift :=
  { date := d, start_time := sd.start_time, end_time := sd.end_time,
    type := sd.type, price := sd.price }

/- ---------------------------------------------------------------------- -/
/- Client-side filtering (`filteredVacancies`, lines 127-157)              -/
/- ---------------------------------------------------------------------- -/

/-- The predicate of the active-range branch of `filteredVacancies`:
`!vacancy.swifts || vacancy.swifts.length === 0` excludes the vacancy,
otherwise keep it iff some swift's price lies in the inclusive range. -/
def keepsVacancy (actualMinPrice actualMaxPrice : Int) (vacancy : Vacancy) : Bool :=
  match vacancy.swifts with
  | none => false
  | some swifts =>
    if swifts.length = 0 then false
    else swifts.any fun swift =>
      decide (actualMinPrice ≤ swift.price) && decide (swift.price ≤ actualMaxPrice)

/-- The predicate of the no-active-filter branch of `filteredVacancies`:
`vacancy.swifts && vacancy.swifts.length > 0`. -/
def hasShifts (vacancy : Vacancy) : Bool :=
  match vacancy.swifts with
  | none => false
  | some swifts => decide (0 < swifts.length)

/-- `filteredVacancies` (the `useMemo` body): the two-branch client-side
filter over the raw list and the debounced bounds. -/
def filteredVacancies (rawVacancies : List Vacancy)
    (actualMinPrice actualMaxPrice : Int) : List Vacancy :=
  if decide (0 < actualMinPrice) || decide (actualMaxPrice < 1000) then
    rawVacancies.filter (keepsVacancy actualMinPrice actualMaxPrice)
  else
    rawVacancies.filter hasShifts

/-- The filter predicate exactly as claim C1 words it: shift list present and
non-empty, and, when `min > 0` or `max < 1000`, at least one shift whose
price lies in `[min, max]` inclusive. -/
def specKeeps (minP maxP : Int) (v : Vacancy) : Bool :=
  (match v.swifts with
   | none => false
   | some l => !l.isEmpty)
  &&
  (if decide (0 < minP) || decide (maxP < 1000) then
     (match v.swifts with
      | none => false
      | some l => l.any fun s => decide (minP ≤ s.price) && decide (s.price ≤ maxP))
   else true)

theorem keepsVacancy_eq_specKeeps (minP maxP : Int)
    (h : (decide (0 < minP) || decide (maxP < 1000)) = true) (v : Vacancy) :
    keepsVacancy minP maxP v = specKeeps minP maxP v := by
  unfold keepsVacancy specKeeps
  rw [h]
  cases v.swifts with
  | none => simp
  | some l =>
    cases l with
    | nil => simp
    | cons a t => simp [List.isEmpty]

theorem hasShifts_eq_specKeeps (minP maxP : Int)
    (h : (decide (0 < minP) || decide (maxP < 1000)) = false) (v : Vacancy) :
    hasShifts v = specKeeps minP maxP v := by
  unfold hasShifts specKeeps
  rw [h]
  cases v.swifts with
  | none => simp
  | some l =>
    cases l with
    | nil => simp
    | cons a t => simp [List.isEmpty]

/-- C1.  For every raw vacancy list and every debounced bound pair
`(min, max)`, the filter produces exactly those vacancies, in raw-list order
(a sublist of the raw list), that satisfy the claim's predicate `specKeeps`:
shift list present and non-empty, and — when `min > 0` or `max < 1000` —
containing at least one shift whose price `p` satisfies `min ≤ p ≤ max`
inclusive; when `(min, max) = (0, 1000)` the result is exactly the raw list
minus vacancies with a missing or empty shift list. -/
theorem C1_filteredVacancies_spec (raw : List Vacancy) (minP maxP : Int) :
    filteredVacancies raw minP maxP = raw.filter (specKeeps minP maxP) ∧
    List.Sublist (filteredVacancies raw minP maxP) raw ∧
    (minP = 0 ∧ maxP = 1000 →
      filteredVacancies raw minP maxP =
        raw.filter fun v =>
          match v.swifts with
          | none => false
          | some l => !l.isEmpty) := by
  refine ⟨?_, ?_, ?_⟩
  · unfold filteredVacancies
    by_cases h : (decide (0 < minP) || decide (maxP < 1000)) = true
    · rw [if_pos h]
      exact List.filter_congr fun v _ => keepsVacancy_eq_specKeeps minP maxP h v
    · rw [if_neg h]
      exact List.filter_congr fun v _ =>
        hasShifts_eq_specKeeps minP maxP (Bool.not_eq_true _ ▸ h) v
  · unfold filteredVacancies
    by_cases h : (decide (0 < minP) || decide (maxP < 1000)) = true
    · rw [if_pos h]; exact List.filter_sublist raw
    · rw [if_neg h]; exact List.filter_sublist raw
  · rintro ⟨h1, h2⟩
    subst h1; subst h2
    unfold filteredVacancies
    rw [if_neg (by decide)]
    exact List.filter_congr fun v _ => by
      unfold hasShifts
      cases v.swifts with
      | none => rfl
      | some l => cases l <;> simp [List.isEmpty]

/-- Example vacancies from the spec's testable-properties section. -/
def vacEx1 : Vacancy :=
  { id := 1, title := "", description := "",
    swifts := some [{ date := "", start_time := "", end_time := "", type := "", price := 50 }] }

def vacEx2 : Vacancy :=
  { id := 2, title := "", description := "", swifts := some [] }

def vacEx3 : Vacancy :=
  { id := 3, title := "", description := "",
    swifts := some [{ date := "", start_time := "", end_time := "", type := "", price := 900 }] }

/-- C1 witness: the theorem applied to the spec's example list at the
default bounds `(0, 1000)`, whose hypothesis is discharged concretely, and
the filter evaluated on the example: `(0,1000)` keeps ids 1 and 3,
`(0,100)` keeps only id 1. -/
theorem C1_filteredVacancies_spec_witness :
    (filteredVacancies [vacEx1, vacEx2, vacEx3] 0 1000 =
      [vacEx1, vacEx2, vacEx3].filter fun v =>
        match v.swifts with
        | none => false
        | some l => !l.isEmpty) ∧
    filteredVacancies [vacEx1, vacEx2, vacEx3] 0 1000 = [vacEx1, vacEx3] ∧
    filteredVacancies [vacEx1, vacEx2, vacEx3] 0 100 = [vacEx1] :=
  ⟨(C1_filteredVacancies_spec [vacEx1, vacEx2, vacEx3] 0 1000).2.2 ⟨rfl, rfl⟩,
   by decide, by decide⟩

/- ---------------------------------------------------------------------- -/
/- Draft shift-list operations (`addShift`, `removeShift`, lines 203-237)  -/
/- ---------------------------------------------------------------------- -/

/-- The comparator `(a, b) => a.date.localeCompare(b.date)`: ascending
lexical (codepoint) order on the date strings, stated on the underlying
character lists. -/
def dateLe (a b : UiShift) : Prop := a.date.data ≤ b.date.data

instance : DecidableRel dateLe :=
  fun a b => inferInstanceAs (Decidable (a.date.data ≤ b.date.data))

instance : IsTotal UiShift dateLe := ⟨fun a b => le_total a.date.data b.date.data⟩

instance : IsTrans UiShift dateLe := ⟨fun _ _ _ h1 h2 => le_trans h1 h2⟩

/-- `Array.prototype.sort` with the date comparator: a stable sort by date,
embedded as insertion sort (stable sorts by a total preorder agree). -/
def sortShifts (l : List UiShift) : List UiShift := List.insertionSort dateLe l

/-- `addShift` (lines 203-219): guard `dateInput && !shifts.some(same date)`;
on success append the default row and re-sort, clearing the date input.
Takes and returns the `dateInput` state alongside the draft. -/
def addShift (dateInput : String) (formData : FormData) : FormData × String :=
  if !(dateInput == "") && !(formData.shifts.any fun s => s.date == dateInput) then
    ({ formData with
        shifts := sortShifts (formData.shifts ++ [initialShiftDetails.withDate dateInput]) },
     "")
  else
    (formData, dateInput)

/-- `removeShift` (lines 232-237): drop every row whose date equals
`dateToRemove`. -/
def removeShift (dateToRemove : String) (formData : FormData) : FormData :=
  { formData with shifts := formData.shifts.filter fun s => !(s.date == dateToRemove) }

/- ---------------------------------------------------------------------- -/
/- Validation (`validateForm`, lines 240-277)                              -/
/- ---------------------------------------------------------------------- -/

/-- `String.prototype.split` with a one-character separator, computed on the
underlying character list. -/
def splitOnChar (c : Char) : List Char → List (List Char)
  | [] => [[]]
  | x :: xs =>
    if x = c then [] :: splitOnChar c xs
    else
      match splitOnChar c xs with
      | h :: t => (x :: h) :: t
      | [] => [[x]]

/-- Decimal value of a digit run. -/
def digitsToNat (l : List Char) : Nat :=
  l.foldl (fun n c => n * 10 + (c.toNat - 48)) 0

/-- JavaScript `parseInt` on the strings appearing here (digit prefixes; the
sign/whitespace handling is not exercised by the component): `none` models
`NaN` (no leading digit). -/
def jsParseInt (l : List Char) : Option Nat :=
  match l.takeWhile Char.isDigit with
  | [] => none
  | ds => some (digitsToNat ds)

/-- `parseInt(t.split(":")[0]) * 60 + parseInt(t.split(":")[1])`: `none`
models a `NaN` result (a part missing or unparsable). -/
def timeToMinutes (t : String) : Option Nat :=
  match splitOnChar ':' t.data with
  | h :: m :: _ => do
    let hv ← jsParseInt h
    let mv ← jsParseInt m
    return hv * 60 + mv
  | _ => none

/-- `shift.price <= 0 || isNaN(shift.price)` (in JavaScript a `NaN` price
fails the `isNaN` disjunct; comparisons with `NaN` are false). -/
def shiftPriceBad (s : UiShift) : Bool :=
  match s.price with
  | none => true
  | some p => decide (p ≤ 0)

/-- `endTimeInMinutes <= startTimeInMinutes`; any `NaN` operand makes the
JavaScript comparison false. -/
def shiftTimeBad (s : UiShift) : Bool :=
  match timeToMinutes s.start_time, timeToMinutes s.end_time with
  | some a, some b => decide (b ≤ a)
  | _, _ => false

/-- The `shiftErrors` entries contributed by row `index` (price key first,
then time key, matching the source's insertion order). -/
def shiftRowErrors (index : Nat) (s : UiShift) : List (String × String) :=
  (if shiftPriceBad s then [("price-" ++ toString index, "Price must be > 0.")] else [])
  ++ (if shiftTimeBad s then
        [("time-" ++ toString index, "End time must be after start time.")] else [])

/-- The `errors` object built by `validateForm`: `none` / `[]` model absent
keys (`shiftDetails` is attached only when some row erred, which coincides
with the list being non-empty). -/
structure ValidationErrors where
  title : Option String
  description : Option String
  shifts : Option String
  shiftDetails : List (String × String)
deriving DecidableEq, Repr

/-- The empty error object `{}` (also what `setValidationErrors({})` stores). -/
def noErrors : ValidationErrors :=
  { title := none, description := none, shifts := none, shiftDetails := [] }

/-- `validateForm` (lines 240-277), as the error object it records. -/
def validateForm (formData : FormData) : ValidationErrors :=
  { title := if formData.title == "" then some "Title is required." else none
  , description :=
      if formData.description == "" then some "Description is required." else none
  , shifts :=
      if formData.shifts.length = 0 then some "At least one date/shift is required." else none
  , shiftDetails :=
      (formData.shifts.enum.map fun p => shiftRowErrors p.1 p.2).flatten }

/-- `Object.keys(errors).length === 0`: the boolean `validateForm` returns. -/
def isValidResult (e : ValidationErrors) : Bool :=
  e.title.isNone && e.description.isNone && e.shifts.isNone && e.shiftDetails.isEmpty

/- ---------------------------------------------------------------------- -/
/- Component state and the drawer handlers (lines 54-71, 160-192)          -/
/- ---------------------------------------------------------------------- -/

/-- The component state relevant to the claims (`isLoading` and the raw
slider values are omitted as transient/irrelevant here; the slider pair is
modelled separately below). -/
structure AppState where
  rawVacancies : List Vacancy
  formData : FormData
  isDrawerOpen : Bool
  editingVacancy : Option Vacancy
  validationErrors : ValidationErrors
deriving DecidableEq, Repr

/-- The `loadedShifts` mapping of `openDrawer` (lines 166-174): date copied
verbatim, times truncated with `substring(0, 5)`, type and price copied. -/
def loadedShifts (vacancy : Vacancy) : List UiShift :=
  match vacancy.swifts with
  | some swifts =>
      swifts.map fun swift =>
        { date := swift.date
        , start_time := swift.start_time.take 5
        , end_time := swift.end_time.take 5
        , type := swift.type
        , price := some swift.price }
  | none => []

/-- `openDrawer` (lines 160-186): clear errors; with a vacancy, load its
shifts sorted by date and copy title/description; without, reset the draft;
finally open the drawer. -/
def openDrawer (vacancy : Option Vacancy) (st : AppState) : AppState :=
  match vacancy with
  | some v =>
      { st with
        validationErrors := noErrors
        editingVacancy := some v
        formData :=
          { title := v.title
          , description := v.description
          , shifts := sortShifts (loadedShifts v) }
        isDrawerOpen := true }
  | none =>
      { st with
        validationErrors := noErrors
        editingVacancy := none
        formData := initialFormData
        isDrawerOpen := true }

/-- `closeDrawer` (lines 188-192): note `formData` is not reset. -/
def closeDrawer (st : AppState) : AppState :=
  { st with isDrawerOpen := false, editingVacancy := none, validationErrors := noErrors }

/-- C6.  Add-shift with an empty date input or a date already present in the
draft is a no-op (draft and date input unchanged, so in particular the row
count is unchanged); with a non-empty new date it appends exactly one row
carrying the fixed defaults (start 09:00, end 17:00, type Consultation,
price 70) — the result is a permutation of the old list plus that row, has
one more row, and is sorted ascending by lexical date order — and clears the
date input. -/
theorem C6_addShift_spec (d : String) (fd : FormData) :
    (d = "" → addShift d fd = (fd, d)) ∧
    ((fd.shifts.any fun s => s.date == d) = true → addShift d fd = (fd, d)) ∧
    (d ≠ "" → (fd.shifts.any fun s => s.date == d) = false →
      (addShift d fd).1.title = fd.title ∧
      (addShift d fd).1.description = fd.description ∧
      List.Perm (addShift d fd).1.shifts
        (fd.shifts ++ [{ date := d, start_time := "09:00", end_time := "17:00",
                         type := "Consultation", price := some 70 }]) ∧
      (addShift d fd).1.shifts.length = fd.shifts.length + 1 ∧
      List.Sorted dateLe (addShift d fd).1.shifts ∧
      (addShift d fd).2 = "") := by
  refine ⟨?_, ?_, ?_⟩
  · intro h; subst h; simp [addShift]
  · intro h; simp [addShift, h]
  · intro h1 h2
    have hc : (!(d == "") && !(fd.shifts.any fun s => s.date == d)) = true := by
      simp [h1, h2]
    unfold addShift
    rw [if_pos hc]
    refine ⟨rfl, rfl, ?_, ?_, ?_, rfl⟩
    · exact List.perm_insertionSort dateLe _
    · have hl : (sortShifts (fd.shifts ++ [initialShiftDetails.withDate d])).length
          = (fd.shifts ++ [initialShiftDetails.withDate d]).length :=
        (List.perm_insertionSort dateLe _).length_eq
      rw [hl]
      simp
    · exact List.sorted_insertionSort dateLe _

/-- Example draft used by the C6 witness. -/
def fdEx6 : FormData :=
  { title := "A", description := "B",
    shifts := [{ date := "2025-01-03", start_time := "09:00", end_time := "17:00",
                 type := "Consultation", price := some 70 }] }

/-- C6 witness: the theorem instantiated at the concrete draft, with an
earlier fresh date (the sorted result and row count evaluated concretely)
and at a duplicate date (no-op). -/
theorem C6_addShift_spec_witness :
    ("2025-01-02" : String) ≠ "" ∧
    (fdEx6.shifts.any fun s => s.date == "2025-01-02") = false ∧
    (addShift "2025-01-02" fdEx6).1.shifts.length = fdEx6.shifts.length + 1 ∧
    List.Sorted dateLe (addShift "2025-01-02" fdEx6).1.shifts ∧
    ((addShift "2025-01-02" fdEx6).1.shifts.map fun s => s.date) =
      ["2025-01-02", "2025-01-03"] ∧
    addShift "2025-01-03" fdEx6 = (fdEx6, "2025-01-03") := by
  have h := (C6_addShift_spec "2025-01-02" fdEx6).2.2 (by decide) (by decide)
  exact ⟨by decide, by decide, h.2.2.2.1, h.2.2.2.2.1, by decide,
    (C6_addShift_spec "2025-01-03" fdEx6).2.1 (by decide)⟩

/-- A vacancy whose shift dates arrive in the DD-MM-YYYY wire form. -/
def vacWire : Vacancy :=
  { id := 7, title := "T", description := "D",
    swifts := some [{ date := "02-01-2025", start_time := "09:00:00",
                      end_time := "17:00:00", type := "Consultation", price := 70 }] }

/-- An idle component state used to exercise the handlers. -/
def st0 : AppState :=
  { rawVacancies := [], formData := initialFormData, isDrawerOpen := false,
    editingVacancy := none, validationErrors := noErrors }

/-- C2 counterexample: `openDrawer` copies the shift date verbatim
("02-01-2025"), it does not reformat the DD-MM-YYYY wire form into
YYYY-MM-DD ("2025-01-02") as the claim states. -/
theorem C2_openDrawer_counterexample :
    ((openDrawer (some vacWire) st0).formData.shifts.map fun s => s.date) =
      ["02-01-2025"] ∧
    ¬ (((openDrawer (some vacWire) st0).formData.shifts.map fun s => s.date) =
      ["2025-01-02"]) := by
  constructor
  · rfl
  · intro h
    exact absurd (List.cons.injEq .. ▸ congrArg id h) (by decide)

/-- C2 (amended).  Opening the form panel with a source vacancy copies its
shifts into the UI-local representation with the date string copied verbatim
from the wire value (no reformatting), times truncated to their first five
characters (HH:MM), type and price copied, and the resulting draft shift
list sorted ascending by date; title and description are copied; opening
without a source vacancy yields the empty draft (empty title, empty
description, no shifts); in both cases the validation error set is cleared
and the drawer opens. -/
theorem C2_openDrawer_amended (st : AppState) (v : Vacancy) :
    (openDrawer (some v) st).validationErrors = noErrors ∧
    (openDrawer (some v) st).isDrawerOpen = true ∧
    (openDrawer (some v) st).editingVacancy = some v ∧
    (openDrawer (some v) st).formData.title = v.title ∧
    (openDrawer (some v) st).formData.description = v.description ∧
    List.Sorted dateLe (openDrawer (some v) st).formData.shifts ∧
    (∀ swifts, v.swifts = some swifts →
      List.Perm (openDrawer (some v) st).formData.shifts
        (swifts.map fun swift =>
          { date := swift.date
          , start_time := swift.start_time.take 5
          , end_time := swift.end_time.take 5
          , type := swift.type
          , price := some swift.price })) ∧
    (v.swifts = none → (openDrawer (some v) st).formData.shifts = []) ∧
    openDrawer none st =
      { st with validationErrors := noErrors, editingVacancy := none,
                formData := initialFormData, isDrawerOpen := true } ∧
    initialFormData.title = "" ∧ initialFormData.description = "" ∧
    initialFormData.shifts = [] := by
  refine ⟨rfl, rfl, rfl, rfl, rfl, ?_, ?_, ?_, rfl, rfl, rfl, rfl⟩
  · exact List.sorted_insertionSort dateLe _
  · intro swifts hsw
    have hl : (openDrawer (some v) st).formData.shifts = sortShifts (loadedShifts v) := rfl
    have hl2 : loadedShifts v = swifts.map fun swift =>
        { date := swift.date, start_time := swift.start_time.take 5,
          end_time := swift.end_time.take 5, type := swift.type,
          price := some swift.price } := by
      simp [loadedShifts, hsw]
    rw [hl, hl2]
    exact List.perm_insertionSort dateLe _
  · intro hsw
    simp [openDrawer, loadedShifts, hsw, sortShifts]

/-- C2 witness: the amended theorem applied to the concrete wire vacancy;
the loaded draft evaluated concretely shows the verbatim date, truncated
times and cleared errors. -/
theorem C2_openDrawer_amended_witness :
    List.Sorted dateLe (openDrawer (some vacWire) st0).formData.shifts ∧
    List.Perm (openDrawer (some vacWire) st0).formData.shifts
      [{ date := "02-01-2025", start_time := "09:00", end_time := "17:00",
         type := "Consultation", price := some 70 }] ∧
    (openDrawer (some vacWire) st0).validationErrors = noErrors ∧
    (openDrawer (some vacWire) st0).formData.title = "T" := by
  have h := C2_openDrawer_amended st0 vacWire
  exact ⟨h.2.2.2.2.2.1, h.2.2.2.2.2.2.1 _ rfl, h.1, h.2.2.2.1⟩

/- ---------------------------------------------------------------------- -/
/- Structural invariant of the draft shift list (C9)                       -/
/- ---------------------------------------------------------------------- -/

/-- The draft shift list's structural invariant: all dates pairwise distinct
and the list sorted ascending by lexical date comparison. -/
def ShiftsInv (l : List UiShift) : Prop :=
  (l.map fun s => s.date).Nodup ∧ List.Sorted dateLe l

/-- The dates carried by a vacancy's wire shift list. -/
def wireDates (v : Vacancy) : List String :=
  match v.swifts with
  | some swifts => swifts.map fun s => s.date
  | none => []

theorem loadedShifts_map_date (v : Vacancy) :
    ((loadedShifts v).map fun s => s.date) = wireDates v := by
  unfold loadedShifts wireDates
  cases v.swifts with
  | none => rfl
  | some swifts => rw [List.map_map]; rfl

/-- C9.  The structural invariant — dates pairwise distinct, list sorted
ascending by lexical date order — holds for the empty initial draft, holds
after opening with a source vacancy whose shift dates are pairwise distinct
(the data-model invariant of а vacancy), and is preserved by every add-shift
and every remove-shift. -/
theorem C9_shifts_invariant :
    ShiftsInv initialFormData.shifts ∧
    (∀ (st : AppState) (v : Vacancy), (wireDates v).Nodup →
      ShiftsInv (openDrawer (some v) st).formData.shifts) ∧
    (∀ d fd, ShiftsInv fd.shifts → ShiftsInv (addShift d fd).1.shifts) ∧
    (∀ d fd, ShiftsInv fd.shifts → ShiftsInv (removeShift d fd).shifts) := by
  refine ⟨⟨by simp [initialFormData], by simp [initialFormData]⟩, ?_, ?_, ?_⟩
  · intro st v hnd
    constructor
    · have hperm :=
        (List.perm_insertionSort dateLe (loadedShifts v)).map fun s => s.date
      rw [loadedShifts_map_date] at hperm
      exact hperm.nodup_iff.mpr hnd
    · exact List.sorted_insertionSort dateLe _
  · intro d fd hinv
    by_cases hc : (!(d == "") && !(fd.shifts.any fun s => s.date == d)) = true
    · have hcond := hc
      simp only [Bool.and_eq_true, Bool.not_eq_true', beq_eq_false_iff_ne,
        List.any_eq_false] at hc
      unfold addShift
      rw [if_pos hcond]
      constructor
      · have hperm :=
          (List.perm_insertionSort dateLe
            (fd.shifts ++ [initialShiftDetails.withDate d])).map fun s => s.date
        have hmap : ((fd.shifts ++ [initialShiftDetails.withDate d]).map fun s => s.date)
            = (fd.shifts.map fun s => s.date) ++ [d] := by
          simp [ShiftDetails.withDate, initialShiftDetails]
        rw [hmap] at hperm
        refine hperm.nodup_iff.mpr ?_
        have hp2 := List.perm_append_singleton d (fd.shifts.map fun s => s.date)
        refine hp2.nodup_iff.mpr (List.nodup_cons.mpr ⟨?_, hinv.1⟩)
        intro hmem
        obtain ⟨s, hs, hds⟩ := List.mem_map.mp hmem
        exact hc.2 s hs (by simp [hds])
      · exact List.sorted_insertionSort dateLe _
    · unfold addShift
      rw [if_neg hc]
      exact hinv
  · intro d fd hinv
    constructor
    · have hsub : List.Sublist ((removeShift d fd).shifts.map fun s => s.date)
          (fd.shifts.map fun s => s.date) :=
        (List.filter_sublist fd.shifts).map _
      exact hinv.1.sublist hsub
    · exact hinv.2.sublist (List.filter_sublist fd.shifts)

/-- C9 witness: the theorem applied to the concrete wire vacancy, example
draft and concrete dates, with every hypothesis discharged by computation. -/
theorem C9_shifts_invariant_witness :
    ShiftsInv initialFormData.shifts ∧
    (wireDates vacWire).Nodup ∧
    ShiftsInv (openDrawer (some vacWire) st0).formData.shifts ∧
    ShiftsInv (addShift "2025-01-02" fdEx6).1.shifts ∧
    ShiftsInv (removeShift "2025-01-03" fdEx6).shifts :=
  ⟨C9_shifts_invariant.1,
   by decide,
   C9_shifts_invariant.2.1 st0 vacWire (by decide),
   C9_shifts_invariant.2.2.1 "2025-01-02" fdEx6 ⟨by decide, by decide⟩,
   C9_shifts_invariant.2.2.2 "2025-01-03" fdEx6 ⟨by decide, by decide⟩⟩

/- ---------------------------------------------------------------------- -/
/- Validation theorems (C7, C8)                                            -/
/- ---------------------------------------------------------------------- -/

theorem shiftRowErrors_time_mem (l : List UiShift) (n i : Nat) (s : UiShift)
    (hs : l.get? i = some s) (hbad : shiftTimeBad s = true) :
    ("time-" ++ toString (n + i), "End time must be after start time.") ∈
      ((l.enumFrom n).map fun p => shiftRowErrors p.1 p.2).flatten := by
  induction l generalizing n i with
  | nil => simp at hs
  | cons a t ih =>
    cases i with
    | zero =>
      obtain rfl : a = s := by simpa using hs
      simp only [List.enumFrom, List.map_cons, List.flatten_cons, List.mem_append]
      left
      unfold shiftRowErrors
      rw [hbad]
      simp
    | succ j =>
      have hmem := ih (n + 1) j hs
      have harith : n + 1 + j = n + (j + 1) := by omega
      rw [harith] at hmem
      simp only [List.enumFrom, List.map_cons, List.flatten_cons, List.mem_append]
      exact Or.inr hmem

/-- C7.  For every draft and every shift row index `i`, if the row's end
time converted to minutes since midnight is less than or equal to its start
time in minutes, the validation pass records an error under the composite
key `time-<i>`. -/
theorem C7_validateForm_time_error (fd : FormData) (i : Nat) (s : UiShift)
    (hs : fd.shifts.get? i = some s) (a b : Nat)
    (hstart : timeToMinutes s.start_time = some a)
    (hend : timeToMinutes s.end_time = some b) (hle : b ≤ a) :
    ("time-" ++ toString i, "End time must be after start time.")
      ∈ (validateForm fd).shiftDetails := by
  have hbad : shiftTimeBad s = true := by
    unfold shiftTimeBad
    rw [hstart, hend]
    exact decide_eq_true hle
  have h := shiftRowErrors_time_mem fd.shifts 0 i s hs hbad
  rw [Nat.zero_add] at h
  exact h

/-- The spec's validation example: end time 08:00 before start 09:00,
positive price. -/
def draftEx7 : FormData :=
  { title := "A", description := "B",
    shifts := [{ date := "2025-01-02", start_time := "09:00", end_time := "08:00",
                 type := "Consultation", price := some 10 }] }

/-- C7 witness: the theorem applied at the spec's example draft (row 0,
540 and 480 minutes); evaluating the pass shows the time error is the only
shift-detail key (hence no price error) and validation fails. -/
theorem C7_validateForm_time_error_witness :
    ("time-0", "End time must be after start time.") ∈ (validateForm draftEx7).shiftDetails ∧
    ((validateForm draftEx7).shiftDetails.map Prod.fst) = ["time-0"] ∧
    isValidResult (validateForm draftEx7) = false :=
  ⟨C7_validateForm_time_error draftEx7 0
      { date := "2025-01-02", start_time := "09:00", end_time := "08:00",
        type := "Consultation", price := some 10 }
      rfl 540 480 (by decide) (by decide) (by decide),
   by decide, by decide⟩

/-- C8.  A draft with an empty title always records a title error and fails
validation, independent of the description and shift-row fields. -/
theorem C8_validateForm_title_required (fd : FormData) (h : fd.title = "") :
    (validateForm fd).title = some "Title is required." ∧
    isValidResult (validateForm fd) = false := by
  constructor
  · simp [validateForm, h]
  · simp [isValidResult, validateForm, h]

/-- A draft with an empty title but a non-empty description and a fully
valid shift row. -/
def draftEx8 : FormData :=
  { title := "", description := "B",
    shifts := [{ date := "2025-01-02", start_time := "09:00", end_time := "17:00",
                 type := "Consultation", price := some 70 }] }

/-- C8 witness: the theorem applied to `draftEx8`, whose only defect is the
empty title. -/
theorem C8_validateForm_title_required_witness :
    (validateForm draftEx8).title = some "Title is required." ∧
    isValidResult (validateForm draftEx8) = false :=
  C8_validateForm_title_required draftEx8 rfl

/- ---------------------------------------------------------------------- -/
/- Fetch layer (`fetchVacancies`, lines 75-107)                            -/
/- ---------------------------------------------------------------------- -/

/-- The parsed JSON body of a GET response: `data` is `none` when the field
is missing or not an array (`Array.isArray(result.data)` fails). -/
structure FetchBody where
  success : Bool
  data : Option (List Vacancy)
deriving DecidableEq, Repr

/-- Outcome of the awaited GET: `reject msg` models `fetch` or
`response.json()` rejecting with `error.message = msg`; `resp` models a
settled response with its `ok` flag, status, and parsed body (the body is
never inspected when `ok` is false, matching the source's early throw). -/
inductive FetchOutcome where
  | reject (message : String)
  | resp (ok : Bool) (status : Nat) (body : FetchBody)
deriving DecidableEq, Repr

/-- What one `fetchVacancies` invocation does: the raw list it stores, the
alerts it shows, and the console diagnostics it logs. -/
structure FetchResult where
  rawVacancies : List Vacancy
  alerts : List String
  logs : List String
deriving DecidableEq, Repr

/-- The `catch` block of `fetchVacancies`: log, empty the raw list, alert
with the error message and the API base URL. -/
def fetchCatch (msg : String) : FetchResult :=
  { rawVacancies := []
  , alerts := ["Failed to connect to API: " ++ msg ++
      ". Please ensure the backend is running at " ++ API_BASE_URL]
  , logs := ["Failed to fetch vacancies: " ++ msg] }

/-- `fetchVacancies` (lines 75-107).  A non-ok response throws
`HTTP error! status: <status>` into the catch; a well-formed body
(`success` true and `data` an array) replaces the raw list; otherwise the
raw list is emptied and a diagnostic logged without alerting. -/
def fetchVacancies : FetchOutcome → FetchResult
  | .reject msg => fetchCatch msg
  | .resp ok status body =>
    if !ok then fetchCatch ("HTTP error! status: " ++ toString status)
    else if body.success && body.data.isSome then
      { rawVacancies := body.data.getD [], alerts := [], logs := [] }
    else
      { rawVacancies := []
      , alerts := []
      , logs := ["API success: true, but data array is missing or malformed."] }

/- ---------------------------------------------------------------------- -/
/- Mutation layer (`handleSave`, `handleDelete`, lines 281-360)            -/
/- ---------------------------------------------------------------------- -/

/-- `formatDateForAPI` (lines 17-21): swap a `Y-M-D` string into `D-M-Y`.
The source destructures the first three split parts; drafts only ever hold
well-formed `YYYY-MM-DD` dates, so the under-length fallback is never
exercised. -/
def formatDateForAPI (dateStr : String) : String :=
  if dateStr == "" then ""
  else
    match splitOnChar '-' dateStr.data with
    | year :: month :: day :: _ =>
        String.mk day ++ "-" ++ String.mk month ++ "-" ++ String.mk year
    | _ => ""

/-- `formatTimeForAPI` (line 24): identity on HH:MM strings. -/
def formatTimeForAPI (timeStr : String) : String := timeStr

/-- One element of the `shifts` array sent on save. -/
structure WireShiftPayload where
  date : String
  start_time : String
  end_time : String
  type : String
  price : Option Int
deriving DecidableEq, Repr

/-- The JSON body sent by `handleSave`. -/
structure VacancyPayload where
  title : String
  description : String
  shifts : List WireShiftPayload
deriving DecidableEq, Repr

/-- `shiftsPayload` (lines 287-293). -/
def shiftsPayload (fd : FormData) : List WireShiftPayload :=
  fd.shifts.map fun shift =>
    { date := formatDateForAPI shift.date
    , start_time := formatTimeForAPI shift.start_time
    , end_time := formatTimeForAPI shift.end_time
    , type := shift.type
    , price := shift.price }

/-- Outcome of an awaited mutation request (`bodyText` is what
`response.text()` yields for the error path). -/
inductive NetOutcome where
  | reject (message : String)
  | resp (ok : Bool) (status : Nat) (bodyText : String)
deriving DecidableEq, Repr

/-- The request `handleSave` issues. -/
structure SaveRequest where
  url : String
  method : String
  body : VacancyPayload
deriving DecidableEq, Repr

/-- What one `handleSave` invocation does: the state it leaves, the request
it issued (if any), whether it re-fetched, and the alerts it showed. -/
structure SaveResult where
  state : AppState
  request : Option SaveRequest
  fetched : Bool
  alerts : List String
deriving DecidableEq, Repr

/-- The request `handleSave` builds (lines 295-312): PUT to
`<base>/<id>` when editing, POST to the base URL when creating, with the
serialized draft as body. -/
def saveRequestOf (st : AppState) : SaveRequest :=
  { url := match st.editingVacancy with
           | some v => API_BASE_URL ++ "/" ++ toString v.id
           | none => API_BASE_URL
  , method := match st.editingVacancy with
              | some _ => "PUT"
              | none => "POST"
  , body := { title := st.formData.title
            , description := st.formData.description
            , shifts := shiftsPayload st.formData } }

/-- `handleSave` (lines 281-330).  Validation failure alerts and stops
before any request; otherwise POST (create) or PUT (update) is issued; a
non-ok response or rejection alerts with the thrown message and leaves the
state as it was (the error object stored by `validateForm` is `{}` on this
path since validation passed); on success the list is re-fetched and the
drawer closed. -/
def handleSave (st : AppState) (save : NetOutcome) (fo : FetchOutcome) : SaveResult :=
  if !(isValidResult (validateForm st.formData)) then
    { state := { st with validationErrors := validateForm st.formData }
    , request := none
    , fetched := false
    , alerts := ["Please fix the validation errors before saving."] }
  else
    match save with
    | .reject msg =>
        { state := { st with validationErrors := validateForm st.formData }
        , request := some (saveRequestOf st), fetched := false
        , alerts := ["Error saving vacancy: " ++ msg ++
            ". Please check the console for the full API response."] }
    | .resp ok status bodyText =>
      if !ok then
        { state := { st with validationErrors := validateForm st.formData }
        , request := some (saveRequestOf st), fetched := false
        , alerts := ["Error saving vacancy: " ++
            ("Failed to save vacancy: " ++ toString status ++ " - " ++ bodyText) ++
            ". Please check the console for the full API response."] }
      else
        { state := closeDrawer
            { st with validationErrors := validateForm st.formData
                    , rawVacancies := (fetchVacancies fo).rawVacancies }
        , request := some (saveRequestOf st), fetched := true
        , alerts := (fetchVacancies fo).alerts }

/-- What one `handleDelete` invocation does. -/
structure DeleteResult where
  state : AppState
  requested : Bool
  fetched : Bool
  alerts : List String
deriving DecidableEq, Repr

/-- `handleDelete` (lines 332-360), with the `window.confirm` answer passed
in. -/
def handleDelete (st : AppState) (confirmed : Bool) (del : NetOutcome)
    (fo : FetchOutcome) : DeleteResult :=
  match st.editingVacancy with
  | none => { state := st, requested := false, fetched := false, alerts := [] }
  | some _ =>
    if !confirmed then
      { state := st, requested := false, fetched := false, alerts := [] }
    else
      match del with
      | .reject msg =>
          { state := st, requested := true, fetched := false
          , alerts := ["Error deleting vacancy: " ++ msg ++ ". Check console for details."] }
      | .resp ok status bodyText =>
        if !ok then
          { state := st, requested := true, fetched := false
          , alerts := ["Error deleting vacancy: " ++
              ("Failed to delete vacancy: " ++ toString status ++ " - " ++ bodyText) ++
              ". Check console for details."] }
        else
          let fr := fetchVacancies fo
          { state := closeDrawer { st with rawVacancies := fr.rawVacancies }
          , requested := true, fetched := true
          , alerts := fr.alerts }

/-- `needle` occurs contiguously inside `hay`, stated on the underlying
character lists. -/
def strContains (hay needle : String) : Prop :=
  ∃ p q, hay.data = p ++ needle.data ++ q

theorem strContains_of_parts (pre mid post : String) :
    strContains (pre ++ mid ++ post) mid :=
  ⟨pre.data, post.data, by simp⟩

/-- C4.  Postcondition of a fetch on the raw list: a non-2xx response or a
network failure alerts and resets the raw list to empty; a 2xx response
whose parsed body is not of the shape `{success: true, data: <array>}`
empties the raw list and logs a diagnostic without alerting; a well-formed
success replaces the raw list wholesale with the body's `data` array. -/
theorem C4_fetchVacancies_spec :
    (∀ (status : Nat) (body : FetchBody),
      (fetchVacancies (.resp false status body)).rawVacancies = [] ∧
      (fetchVacancies (.resp false status body)).alerts ≠ []) ∧
    (∀ msg : String,
      (fetchVacancies (.reject msg)).rawVacancies = [] ∧
      (fetchVacancies (.reject msg)).alerts ≠ []) ∧
    (∀ (status : Nat) (body : FetchBody), body.success = false ∨ body.data = none →
      (fetchVacancies (.resp true status body)).rawVacancies = [] ∧
      (fetchVacancies (.resp true status body)).alerts = [] ∧
      (fetchVacancies (.resp true status body)).logs ≠ []) ∧
    (∀ (status : Nat) (data : List Vacancy),
      fetchVacancies (.resp true status { success := true, data := some data }) =
        { rawVacancies := data, alerts := [], logs := [] }) := by
  refine ⟨?_, ?_, ?_, ?_⟩
  · intro status body
    exact ⟨rfl, by simp [fetchVacancies, fetchCatch]⟩
  · intro msg
    exact ⟨rfl, by simp [fetchVacancies, fetchCatch]⟩
  · intro status body h
    have hb : (body.success && body.data.isSome) = false := by
      rcases h with h | h <;> simp [h]
    refine ⟨?_, ?_, ?_⟩ <;> simp [fetchVacancies, hb]
  · intro status data
    rfl

/-- C4 witness: the theorem applied at a 500 response, at a 2xx response
with a missing data array, and at a well-formed success carrying one
vacancy. -/
theorem C4_fetchVacancies_spec_witness :
    (fetchVacancies (.resp false 500 { success := true, data := some [] })).rawVacancies
      = [] ∧
    (fetchVacancies (.resp true 200 { success := true, data := none })).rawVacancies
      = [] ∧
    (fetchVacancies (.resp true 200 { success := true, data := none })).alerts = [] ∧
    (fetchVacancies (.resp true 200 { success := true, data := none })).logs ≠ [] ∧
    fetchVacancies (.resp true 200 { success := true, data := some [vacEx1] }) =
      { rawVacancies := [vacEx1], alerts := [], logs := [] } := by
  have h3 := C4_fetchVacancies_spec.2.2.1 200 { success := true, data := none }
    (Or.inr rfl)
  exact ⟨(C4_fetchVacancies_spec.1 500 { success := true, data := some [] }).1,
    h3.1, h3.2.1, h3.2.2, C4_fetchVacancies_spec.2.2.2 200 [vacEx1]⟩

/-- C5.  When validation produces at least one error key, the save handler
issues no network request, performs no re-fetch, and leaves the draft, the
raw list, the drawer state and the editing target unchanged; only the
validation error set is replaced with the fresh validation result. -/
theorem C5_handleSave_blocked (st : AppState) (save : NetOutcome) (fo : FetchOutcome)
    (h : isValidResult (validateForm st.formData) = false) :
    (handleSave st save fo).request = none ∧
    (handleSave st save fo).fetched = false ∧
    (handleSave st save fo).state.formData = st.formData ∧
    (handleSave st save fo).state.rawVacancies = st.rawVacancies ∧
    (handleSave st save fo).state.isDrawerOpen = st.isDrawerOpen ∧
    (handleSave st save fo).state.editingVacancy = st.editingVacancy ∧
    (handleSave st save fo).state.validationErrors = validateForm st.formData := by
  have hsave : handleSave st save fo =
      { state := { st with validationErrors := validateForm st.formData }
      , request := none
      , fetched := false
      , alerts := ["Please fix the validation errors before saving."] } := by
    unfold handleSave
    rw [h]
    rfl
  rw [hsave]
  exact ⟨rfl, rfl, rfl, rfl, rfl, rfl, rfl⟩

/-- An invalid-draft state: empty title (see `draftEx8`), drawer open, one
raw vacancy. -/
def stInvalid : AppState :=
  { rawVacancies := [vacEx1], formData := draftEx8, isDrawerOpen := true,
    editingVacancy := none, validationErrors := noErrors }

/-- C5 witness: the theorem applied at the invalid concrete state with a
would-be-successful network outcome; nothing is requested and the state is
untouched apart from the recorded errors. -/
theorem C5_handleSave_blocked_witness :
    isValidResult (validateForm stInvalid.formData) = false ∧
    (handleSave stInvalid (.resp true 200 "")
      (.resp true 200 { success := true, data := some [] })).request = none ∧
    (handleSave stInvalid (.resp true 200 "")
      (.resp true 200 { success := true, data := some [] })).state.formData
        = stInvalid.formData ∧
    (handleSave stInvalid (.resp true 200 "")
      (.resp true 200 { success := true, data := some [] })).state.rawVacancies
        = stInvalid.rawVacancies := by
  have h := C5_handleSave_blocked stInvalid (.resp true 200 "")
    (.resp true 200 { success := true, data := some [] }) (by decide)
  exact ⟨by decide, h.1, h.2.2.1, h.2.2.2.1⟩

theorem strContains_build (hay pre mid post : String)
    (h : hay.data = pre.data ++ mid.data ++ post.data) : strContains hay mid :=
  ⟨pre.data, post.data, h⟩

theorem handleSave_valid_reject (st : AppState) (msg : String) (fo : FetchOutcome)
    (hval : isValidResult (validateForm st.formData) = true) :
    handleSave st (.reject msg) fo =
      { state := { st with validationErrors := validateForm st.formData }
      , request := some (saveRequestOf st), fetched := false
      , alerts := ["Error saving vacancy: " ++ msg ++
          ". Please check the console for the full API response."] } := by
  unfold handleSave
  rw [hval]
  rfl

theorem handleSave_valid_httpError (st : AppState) (status : Nat) (bodyText : String)
    (fo : FetchOutcome) (hval : isValidResult (validateForm st.formData) = true) :
    handleSave st (.resp false status bodyText) fo =
      { state := { st with validationErrors := validateForm st.formData }
      , request := some (saveRequestOf st), fetched := false
      , alerts := ["Error saving vacancy: " ++
          ("Failed to save vacancy: " ++ toString status ++ " - " ++ bodyText) ++
          ". Please check the console for the full API response."] } := by
  unfold handleSave
  rw [hval]
  rfl

theorem handleSave_valid_success (st : AppState) (status : Nat) (bodyText : String)
    (fo : FetchOutcome) (hval : isValidResult (validateForm st.formData) = true) :
    handleSave st (.resp true status bodyText) fo =
      { state := closeDrawer
          { st with validationErrors := validateForm st.formData
                  , rawVacancies := (fetchVacancies fo).rawVacancies }
      , request := some (saveRequestOf st), fetched := true
      , alerts := (fetchVacancies fo).alerts } := by
  unfold handleSave
  rw [hval]
  rfl

theorem handleDelete_some_reject (st : AppState) (v : Vacancy) (msg : String)
    (fo : FetchOutcome) (hED : st.editingVacancy = some v) :
    handleDelete st true (.reject msg) fo =
      { state := st, requested := true, fetched := false
      , alerts := ["Error deleting vacancy: " ++ msg ++ ". Check console for details."] } := by
  unfold handleDelete
  rw [hED]
  rfl

theorem handleDelete_some_httpError (st : AppState) (v : Vacancy) (status : Nat)
    (bodyText : String) (fo : FetchOutcome) (hED : st.editingVacancy = some v) :
    handleDelete st true (.resp false status bodyText) fo =
      { state := st, requested := true, fetched := false
      , alerts := ["Error deleting vacancy: " ++
          ("Failed to delete vacancy: " ++ toString status ++ " - " ++ bodyText) ++
          ". Check console for details."] } := by
  unfold handleDelete
  rw [hED]
  rfl

theorem handleDelete_some_success (st : AppState) (v : Vacancy) (status : Nat)
    (bodyText : String) (fo : FetchOutcome) (hED : st.editingVacancy = some v) :
    handleDelete st true (.resp true status bodyText) fo =
      { state := closeDrawer { st with rawVacancies := (fetchVacancies fo).rawVacancies }
      , requested := true, fetched := true
      , alerts := (fetchVacancies fo).alerts } := by
  unfold handleDelete
  rw [hED]
  rfl

/-- A well-formed draft (passes validation). -/
def draftEx3 : FormData :=
  { title := "A", description := "B",
    shifts := [{ date := "2025-01-02", start_time := "09:00", end_time := "17:00",
                 type := "Consultation", price := some 10 }] }

/-- A state holding `draftEx3` with the drawer open in create mode. -/
def stValid : AppState :=
  { rawVacancies := [], formData := draftEx3, isDrawerOpen := true,
    editingVacancy := none, validationErrors := noErrors }

/-- The same state in edit mode. -/
def stEdit : AppState := { stValid with editingVacancy := some vacEx1 }

/-- A successful GET outcome with an empty list. -/
def fetchOkEmpty : FetchOutcome := .resp true 200 { success := true, data := some [] }

/-- C3 counterexample: after a successful save the panel is closed, but the
draft is not discarded — `formData` still holds the just-saved draft rather
than the empty initial draft, because `closeDrawer` never resets it. -/
theorem C3_mutation_counterexample :
    (handleSave stValid (.resp true 200 "") fetchOkEmpty).state.isDrawerOpen = false ∧
    (handleSave stValid (.resp true 200 "") fetchOkEmpty).state.formData = draftEx3 ∧
    draftEx3 ≠ initialFormData := by
  exact ⟨by decide, by decide, by decide⟩

/-- C3 (amended).  For every issued create/update/delete request: if the
response is non-2xx or the network fails, an alert containing the status
and response body (or the error message) is shown and the raw vacancy
list, the form draft and the open/closed state of the panel are all
unchanged; if the request succeeds, a full re-fetch of the vacancy list is
performed (the stored raw list is exactly the fetch postcondition's) and
the form panel is then closed with the editing target and validation
errors cleared — the draft contents, however, are retained in `formData`
until the panel is next opened (they are not reset by closing). -/
theorem C3_mutation_amended (st : AppState) :
    (∀ (msg : String) (fo : FetchOutcome),
      isValidResult (validateForm st.formData) = true →
      (handleSave st (.reject msg) fo).request = some (saveRequestOf st) ∧
      (handleSave st (.reject msg) fo).fetched = false ∧
      (handleSave st (.reject msg) fo).state.rawVacancies = st.rawVacancies ∧
      (handleSave st (.reject msg) fo).state.formData = st.formData ∧
      (handleSave st (.reject msg) fo).state.isDrawerOpen = st.isDrawerOpen ∧
      (handleSave st (.reject msg) fo).state.editingVacancy = st.editingVacancy ∧
      (∃ a ∈ (handleSave st (.reject msg) fo).alerts, strContains a msg)) ∧
    (∀ (status : Nat) (bodyText : String) (fo : FetchOutcome),
      isValidResult (validateForm st.formData) = true →
      (handleSave st (.resp false status bodyText) fo).request
        = some (saveRequestOf st) ∧
      (handleSave st (.resp false status bodyText) fo).fetched = false ∧
      (handleSave st (.resp false status bodyText) fo).state.rawVacancies
        = st.rawVacancies ∧
      (handleSave st (.resp false status bodyText) fo).state.formData = st.formData ∧
      (handleSave st (.resp false status bodyText) fo).state.isDrawerOpen
        = st.isDrawerOpen ∧
      (handleSave st (.resp false status bodyText) fo).state.editingVacancy
        = st.editingVacancy ∧
      (∃ a ∈ (handleSave st (.resp false status bodyText) fo).alerts,
        strContains a (toString status) ∧ strContains a bodyText)) ∧
    (∀ (status : Nat) (bodyText : String) (fo : FetchOutcome),
      isValidResult (validateForm st.formData) = true →
      (handleSave st (.resp true status bodyText) fo).fetched = true ∧
      (handleSave st (.resp true status bodyText) fo).state.rawVacancies
        = (fetchVacancies fo).rawVacancies ∧
      (handleSave st (.resp true status bodyText) fo).state.isDrawerOpen = false ∧
      (handleSave st (.resp true status bodyText) fo).state.editingVacancy = none ∧
      (handleSave st (.resp true status bodyText) fo).state.validationErrors = noErrors ∧
      (handleSave st (.resp true status bodyText) fo).state.formData = st.formData) ∧
    (∀ (v : Vacancy) (msg : String) (fo : FetchOutcome),
      st.editingVacancy = some v →
      (handleDelete st true (.reject msg) fo).requested = true ∧
      (handleDelete st true (.reject msg) fo).fetched = false ∧
      (handleDelete st true (.reject msg) fo).state = st ∧
      (∃ a ∈ (handleDelete st true (.reject msg) fo).alerts, strContains a msg)) ∧
    (∀ (v : Vacancy) (status : Nat) (bodyText : String) (fo : FetchOutcome),
      st.editingVacancy = some v →
      (handleDelete st true (.resp false status bodyText) fo).requested = true ∧
      (handleDelete st true (.resp false status bodyText) fo).fetched = false ∧
      (handleDelete st true (.resp false status bodyText) fo).state = st ∧
      (∃ a ∈ (handleDelete st true (.resp false status bodyText) fo).alerts,
        strContains a (toString status) ∧ strContains a bodyText)) ∧
    (∀ (v : Vacancy) (status : Nat) (bodyText : String) (fo : FetchOutcome),
      st.editingVacancy = some v →
      (handleDelete st true (.resp true status bodyText) fo).fetched = true ∧
      (handleDelete st true (.resp true status bodyText) fo).state.rawVacancies
        = (fetchVacancies fo).rawVacancies ∧
      (handleDelete st true (.resp true status bodyText) fo).state.isDrawerOpen = false ∧
      (handleDelete st true (.resp true status bodyText) fo).state.editingVacancy = none ∧
      (handleDelete st true (.resp true status bodyText) fo).state.formData
        = st.formData) := by
  refine ⟨?_, ?_, ?_, ?_, ?_, ?_⟩
  · intro msg fo hval
    rw [handleSave_valid_reject st msg fo hval]
    refine ⟨rfl, rfl, rfl, rfl, rfl, rfl, ?_⟩
    exact ⟨_, List.mem_singleton_self _,
      strContains_build _ "Error saving vacancy: " msg
        ". Please check the console for the full API response." (by simp)⟩
  · intro status bodyText fo hval
    rw [handleSave_valid_httpError st status bodyText fo hval]
    refine ⟨rfl, rfl, rfl, rfl, rfl, rfl, ?_⟩
    refine ⟨_, List.mem_singleton_self _, ?_, ?_⟩
    · exact strContains_build _ ("Error saving vacancy: " ++ "Failed to save vacancy: ")
        (toString status)
        (" - " ++ bodyText ++ ". Please check the console for the full API response.")
        (by simp)
    · exact strContains_build _
        ("Error saving vacancy: " ++ ("Failed to save vacancy: " ++ toString status ++ " - "))
        bodyText ". Please check the console for the full API response." (by simp)
  · intro status bodyText fo hval
    rw [handleSave_valid_success st status bodyText fo hval]
    exact ⟨rfl, rfl, rfl, rfl, rfl, rfl⟩
  · intro v msg fo hED
    rw [handleDelete_some_reject st v msg fo hED]
    refine ⟨rfl, rfl, rfl, ?_⟩
    exact ⟨_, List.mem_singleton_self _,
      strContains_build _ "Error deleting vacancy: " msg
        ". Check console for details." (by simp)⟩
  · intro v status bodyText fo hED
    rw [handleDelete_some_httpError st v status bodyText fo hED]
    refine ⟨rfl, rfl, rfl, ?_⟩
    refine ⟨_, List.mem_singleton_self _, ?_, ?_⟩
    · exact strContains_build _ ("Error deleting vacancy: " ++ "Failed to delete vacancy: ")
        (toString status) (" - " ++ bodyText ++ ". Check console for details.") (by simp)
    · exact strContains_build _
        ("Error deleting vacancy: " ++
          ("Failed to delete vacancy: " ++ toString status ++ " - "))
        bodyText ". Check console for details." (by simp)
  · intro v status bodyText fo hED
    rw [handleDelete_some_success st v status bodyText fo hED]
    exact ⟨rfl, rfl, rfl, rfl, rfl⟩

/-- C3 witness: the amended theorem applied at the concrete valid edit-mode
state: a 422 save leaves the draft and shows an alert containing status and
body; a 200 save closes the panel and stores the re-fetched list; a 200
delete clears the editing target. -/
theorem C3_mutation_amended_witness :
    isValidResult (validateForm stEdit.formData) = true ∧
    (handleSave stEdit (.resp false 422 "bad payload") fetchOkEmpty).state.formData
      = stEdit.formData ∧
    (∃ a ∈ (handleSave stEdit (.resp false 422 "bad payload") fetchOkEmpty).alerts,
      strContains a (toString 422) ∧ strContains a "bad payload") ∧
    (handleSave stEdit (.resp true 200 "") fetchOkEmpty).state.isDrawerOpen = false ∧
    (handleSave stEdit (.resp true 200 "") fetchOkEmpty).state.rawVacancies
      = (fetchVacancies fetchOkEmpty).rawVacancies ∧
    (handleDelete stEdit true (.resp true 200 "") fetchOkEmpty).state.editingVacancy
      = none := by
  have hval : isValidResult (validateForm stEdit.formData) = true := by decide
  have h := C3_mutation_amended stEdit
  have h2 := h.2.1 422 "bad payload" fetchOkEmpty hval
  have h3 := h.2.2.1 200 "" fetchOkEmpty hval
  have h6 := h.2.2.2.2.2 vacEx1 200 "" fetchOkEmpty rfl
  exact ⟨hval, h2.2.2.2.1, h2.2.2.2.2.2.2, h3.2.2.1, h3.2.1, h6.2.2.2.1⟩

/- ---------------------------------------------------------------------- -/
/- Price slider handlers and debounce (C10, lines 62-65, 115-124, 385-404) -/
/- ---------------------------------------------------------------------- -/

/-- The price-filter state: the raw slider bounds and their debounced
copies. -/
structure PriceState where
  minPrice : Int
  maxPrice : Int
  actualMinPrice : Int
  actualMaxPrice : Int
deriving DecidableEq, Repr

/-- Initial values (lines 62-65). -/
def initialPriceState : PriceState :=
  { minPrice := 0, maxPrice := 1000, actualMinPrice := 0, actualMaxPrice := 1000 }

/-- Events acting on the price state: the two range inputs' onChange
handlers (lines 390-392, 400-402) carrying the parsed input value, and the
debounce-timer expiry copying both bounds (lines 115-124). -/
inductive PriceEvent where
  | setMin (v : Int)
  | setMax (v : Int)
  | debounce
deriving DecidableEq, Repr

/-- One event step: `setMinPrice(Math.min(parseInt(v), maxPrice))`,
`setMaxPrice(Math.max(parseInt(v), minPrice))`, and the timer body
`setActualMinPrice(minPrice); setActualMaxPrice(maxPrice)`. -/
def stepPrice (st : PriceState) : PriceEvent → PriceState
  | .setMin v => { st with minPrice := min v st.maxPrice }
  | .setMax v => { st with maxPrice := max v st.minPrice }
  | .debounce => { st with actualMinPrice := st.minPrice, actualMaxPrice := st.maxPrice }

/-- The price state after a sequence of events from the initial state. -/
def runPrice (evs : List PriceEvent) : PriceState :=
  evs.foldl stepPrice initialPriceState

/-- C10.  From the initial bounds (0, 1000), every sequence of slider and
debounce events preserves `minPrice ≤ maxPrice` — the min handler stores
`min(new, maxPrice)`, the max handler `max(new, minPrice)` — and hence the
debounced pair handed to the filter also satisfies
`actualMinPrice ≤ actualMaxPrice`. -/
theorem C10_price_invariant (evs : List PriceEvent) :
    (runPrice evs).minPrice ≤ (runPrice evs).maxPrice ∧
    (runPrice evs).actualMinPrice ≤ (runPrice evs).actualMaxPrice := by
  suffices h : ∀ st : PriceState, st.minPrice ≤ st.maxPrice →
      st.actualMinPrice ≤ st.actualMaxPrice →
      (evs.foldl stepPrice st).minPrice ≤ (evs.foldl stepPrice st).maxPrice ∧
      (evs.foldl stepPrice st).actualMinPrice ≤ (evs.foldl stepPrice st).actualMaxPrice by
    exact h initialPriceState (by decide) (by decide)
  induction evs with
  | nil => exact fun st h1 h2 => ⟨h1, h2⟩
  | cons e t ih =>
    intro st h1 h2
    cases e with
    | setMin v => exact ih _ (min_le_right v st.maxPrice) h2
    | setMax v => exact ih _ (le_max_right v st.minPrice) h2
    | debounce => exact ih _ h1 h1

end ShiftManagement
